import Mathlib

/-! hugo-embed-api: the `amazon` function

A shallow embedding of `functions/amazon/main.go`.  The handler talks to three
collaborators: the S3 bucket used as a cache, the product lookup client and the
logger.  Their observable behaviour is carried by an explicit `World` value that
every operation threads through; each call to S3 or to the lookup client is
appended to `World.calls`, each log line to `World.logs`.

Go `string` and `[]byte` values are both byte sequences and the conversions
`string(b)` / `[]byte(s)` do not change them; both are represented by `String`.
-/

namespace HugoEmbedApi

/-! ## Errors -/

/-- Go `error` values that can reach the handler.  `ErrNotFoundFile` is the package
variable of that name; the handler compares against it by identity, so a value built
anywhere else is never equal to it, whatever its text. -/
inductive GoError where
  /-- The package variable `ErrNotFoundFile = errors.New("file not found")`. -/
  | ErrNotFoundFile
  /-- A value built by `errors.New` or `fmt.Errorf` inside a function of `main.go`. -/
  | errorString (msg : String)
  /-- A `*json.SyntaxError` of `encoding/json`. -/
  | jsonSyntax (msg : String)
  /-- A `*json.UnmarshalTypeError`: JSON value kind and the Go type it was decoded into. -/
  | jsonType (value : String) (goType : String)
  /-- An `awserr.Error` of the AWS SDK, with its code and message. -/
  | awserr (code : String) (message : String)
  /-- Any other error produced by a library (stream reads, the lookup client). -/
  | library (msg : String)
  deriving DecidableEq, Repr

/-- The `Error()` method.  For `jsonType` the text is the one of Go releases that do not
name the struct field; later releases insert `struct field <path>` after `Go`, and every
release starts the text with `json: cannot unmarshal`. -/
def GoError.Error : GoError → String
  | .ErrNotFoundFile => "file not found"
  | .errorString msg => msg
  | .jsonSyntax msg => msg
  | .jsonType value goType => "json: cannot unmarshal " ++ value ++ " into Go value of type " ++ goType
  | .awserr code message => code ++ ": " ++ message
  | .library msg => msg

/-- Go `strings.HasPrefix s p`, on the character lists. -/
def beginsWith (s p : String) : Bool := p.data.isPrefixOf s.data

/-! ## Data model of `main.go` -/

/-- Go `QueryString`. -/
structure QueryString where
  ItemID : String
  deriving DecidableEq, Repr

/-- Go `message`. -/
structure message where
  QueryString : QueryString
  deriving DecidableEq, Repr

/-- Go `service`.  The `client` and `s3` handles denote the collaborators whose behaviour is
recorded in `World`; the only plain datum is the bucket name. -/
structure service where
  bucketName : String
  deriving DecidableEq, Repr

/-- Go `Response`. -/
structure Response where
  Body : String
  deriving DecidableEq, Repr

/-- Go `Item`. -/
structure Item where
  ASIN : String
  Brand : String
  Creator : String
  Manufacturer : String
  Publisher : String
  ReleaseDate : String
  Studio : String
  Title : String
  URL : String
  SmallImage : String
  MediumImage : String
  LargeImage : String
  deriving DecidableEq, Repr

/-! ## The lookup library's response types (the fields `main.go` reads) -/

/-- The library type `amazing.AmazonItemAttributes`, restricted to the fields read. -/
structure AmazonItemAttributes where
  Brand : String
  Creator : String
  Manufacturer : String
  Publisher : String
  ReleaseDate : String
  Studio : String
  Title : String
  deriving DecidableEq, Repr

/-- The library type `amazing.AmazonImage`, restricted to the field read. -/
structure AmazonImage where
  URL : String
  deriving DecidableEq, Repr

/-- The library type `amazing.AmazonItem`, restricted to the fields read.  A field whose XML
element is absent from the upstream answer holds the empty string. -/
structure AmazonItem where
  ASIN : String
  DetailPageURL : String
  SmallImage : AmazonImage
  MediumImage : AmazonImage
  LargeImage : AmazonImage
  ItemAttributes : AmazonItemAttributes
  deriving DecidableEq, Repr

/-- The library type `amazing.AmazonItems`. -/
structure AmazonItems where
  Items : List AmazonItem
  deriving DecidableEq, Repr

/-- The library type `amazing.AmazonItemLookupResponse`. -/
structure AmazonItemLookupResponse where
  AmazonItems : AmazonItems
  deriving DecidableEq, Repr

/-- Go `url.Values`, as the list of its entries in key order. -/
abbrev Values := List (String × List String)

/-! ## `resToItem` -/

/-- Go `resToItem`. -/
def resToItem (res : AmazonItemLookupResponse) : Except GoError Item :=
  let items := res.AmazonItems.Items
  match items with
  | [] => .error (.errorString "empty amazon items")
  | aitem :: _ =>
    .ok {
      ASIN := aitem.ASIN
      Brand := aitem.ItemAttributes.Brand
      Creator := aitem.ItemAttributes.Creator
      Manufacturer := aitem.ItemAttributes.Manufacturer
      Publisher := aitem.ItemAttributes.Publisher
      ReleaseDate := aitem.ItemAttributes.ReleaseDate
      Studio := aitem.ItemAttributes.Studio
      Title := aitem.ItemAttributes.Title
      URL := aitem.DetailPageURL
      SmallImage := aitem.SmallImage.URL
      MediumImage := aitem.MediumImage.URL
      LargeImage := aitem.LargeImage.URL }

/-! ## `encoding/json`: marshalling an `Item` -/

/-- The lower-case hexadecimal digit of `n % 16`. -/
def hexDigit (n : Nat) : Char := "0123456789abcdef".data.getD (n % 16) (Char.ofNat 48)

/-- The output of `encoding/json` for one character of a string value (HTML escaping on, as
with `json.Marshal`): quote and backslash get a backslash, newline, carriage return and tab
their letter, other control characters and the characters `<`, `>`, `&` a `\u00XX` code,
U+2028 and U+2029 a `\u202X` code; everything else is copied. -/
def escapeRune (c : Char) : List Char :=
  let bs := Char.ofNat 92
  let n := c.toNat
  if n = 34 ∨ n = 92 then [bs, c]
  else if n = 10 then [bs, Char.ofNat 110]
  else if n = 13 then [bs, Char.ofNat 114]
  else if n = 9 then [bs, Char.ofNat 116]
  else if n < 32 ∨ n = 60 ∨ n = 62 ∨ n = 38 then
    [bs, Char.ofNat 117, Char.ofNat 48, Char.ofNat 48, hexDigit (n / 16), hexDigit n]
  else if n = 8232 ∨ n = 8233 then
    [bs, Char.ofNat 117, Char.ofNat 50, Char.ofNat 48, Char.ofNat 50, hexDigit n]
  else [c]

/-- The JSON text of a Go string: the escaped characters between double quotes. -/
def jsonString (s : String) : String :=
  String.mk ([Char.ofNat 34] ++ (s.data.map escapeRune).flatten ++ [Char.ofNat 34])

/-- One `"name":value` member. -/
def jsonMember (name value : String) : String :=
  jsonString name ++ ":" ++ jsonString value

/-- The encoding `json.Marshal(item)` of an `Item`: its twelve fields in declaration order under
their Go names (the struct has no tags). -/
def encodeItem (item : Item) : String :=
  "\x7b" ++ String.intercalate ","
    [ jsonMember "ASIN" item.ASIN,
      jsonMember "Brand" item.Brand,
      jsonMember "Creator" item.Creator,
      jsonMember "Manufacturer" item.Manufacturer,
      jsonMember "Publisher" item.Publisher,
      jsonMember "ReleaseDate" item.ReleaseDate,
      jsonMember "Studio" item.Studio,
      jsonMember "Title" item.Title,
      jsonMember "URL" item.URL,
      jsonMember "SmallImage" item.SmallImage,
      jsonMember "MediumImage" item.MediumImage,
      jsonMember "LargeImage" item.LargeImage ] ++ "\x7d"

/-- Go `json.Marshal(item)` for an `*Item`.  A struct of string fields has no value the
encoder rejects, so the error result is never produced. -/
def jsonMarshal (item : Item) : Except GoError String := .ok (encodeItem item)

/-! ## `encoding/json`: unmarshalling the event -/

/-- A JSON value as the decoder sees it.  Object members keep their order and duplicates. -/
inductive JSON where
  | null
  | bool (b : Bool)
  | number (literal : String)
  | string (s : String)
  | array (elems : List JSON)
  | object (members : List (String × JSON))

/-- The inbound `json.RawMessage`: its bytes, and what the JSON scanner makes of them (the
message of the syntax error, or the value they denote). -/
structure Event where
  raw : String
  scan : Except String JSON

/-- Simple case folding as used for member names: ASCII upper case to lower case, and the two
non-ASCII characters that fold to ASCII letters (U+017F to `s`, U+212A to `k`). -/
def foldRune (c : Char) : Char :=
  let n := c.toNat
  if n = 383 then Char.ofNat 115
  else if n = 8490 then Char.ofNat 107
  else if 65 ≤ n ∧ n ≤ 90 then Char.ofNat (n + 32)
  else c

/-- Whether an object key selects the struct field with JSON name `name` (the decoder matches
names case-insensitively). -/
def equalFold (key name : String) : Bool :=
  key.data.map foldRune == name.data.map foldRune

/-- The decoder's `saveError`: the first error is kept, decoding goes on. -/
def saveError (saved : Option GoError) (err : GoError) : Option GoError :=
  match saved with
  | none => some err
  | some e => some e

/-- Decoding a JSON value into the `ItemID string` field. -/
def decodeItemID (acc : QueryString × Option GoError) (v : JSON) : QueryString × Option GoError :=
  match v with
  | .string s => ({ ItemID := s }, acc.2)
  | .null => acc
  | .bool _ => (acc.1, saveError acc.2 (.jsonType "bool" "string"))
  | .number _ => (acc.1, saveError acc.2 (.jsonType "number" "string"))
  | .array _ => (acc.1, saveError acc.2 (.jsonType "array" "string"))
  | .object _ => (acc.1, saveError acc.2 (.jsonType "object" "string"))

/-- Decoding a JSON value into a `QueryString` struct: each member named `item_id` is decoded
into the field in turn, other members are skipped. -/
def decodeQueryString (acc : QueryString × Option GoError) (v : JSON) : QueryString × Option GoError :=
  match v with
  | .object members =>
    members.foldl (fun a kv => if equalFold kv.1 "item_id" then decodeItemID a kv.2 else a) acc
  | .null => acc
  | .bool _ => (acc.1, saveError acc.2 (.jsonType "bool" "main.QueryString"))
  | .number _ => (acc.1, saveError acc.2 (.jsonType "number" "main.QueryString"))
  | .string _ => (acc.1, saveError acc.2 (.jsonType "string" "main.QueryString"))
  | .array _ => (acc.1, saveError acc.2 (.jsonType "array" "main.QueryString"))

/-- Decoding a JSON value into a `message` struct. -/
def decodeMessage (acc : QueryString × Option GoError) (v : JSON) : QueryString × Option GoError :=
  match v with
  | .object members =>
    members.foldl
      (fun a kv => if equalFold kv.1 "queryStringParameters" then decodeQueryString a kv.2 else a) acc
  | .null => acc
  | .bool _ => (acc.1, saveError acc.2 (.jsonType "bool" "main.message"))
  | .number _ => (acc.1, saveError acc.2 (.jsonType "number" "main.message"))
  | .string _ => (acc.1, saveError acc.2 (.jsonType "string" "main.message"))
  | .array _ => (acc.1, saveError acc.2 (.jsonType "array" "main.message"))

/-- Go `json.Unmarshal(event, &m)` with `var m message` (all fields zero): a syntax error if
the bytes are not JSON, else the decoded struct, or the first type error met on the way. -/
def jsonUnmarshal (event : Event) : Except GoError message :=
  match event.scan with
  | .error msg => .error (.jsonSyntax msg)
  | .ok v =>
    match decodeMessage ({ ItemID := "" }, none) v with
    | (qs, none) => .ok { QueryString := qs }
    | (_, some err) => .error err

/-! ## The collaborators -/

/-- A call made to a collaborator over the network. -/
inductive Call where
  /-- `s3.GetObject` with its `Bucket` and `Key`. -/
  | GetObject (bucket key : String)
  /-- `client.ItemLookup` with its parameters. -/
  | ItemLookup (params : Values)
  /-- `s3.PutObject` with its `Bucket`, `Key` and the bytes of its `Body`. -/
  | PutObject (bucket key body : String)
  deriving DecidableEq, Repr

/-- Severity of a log line (`log.Info`/`log.Infof`, `log.Warnf`). -/
inductive Level where
  | info
  | warn
  | fatal
  deriving DecidableEq, Repr

/-- The state the handler runs against.
* `objects bucket key`: the bytes stored under a key, if any;
* `getFault bucket key`: the code and message with which the store rejects a `GetObject` of the
  key for a reason other than its absence (access denied, outage, ...);
* `readFault bucket key`: the message with which reading the returned body stream breaks off;
* `putFault bucket key`: the code and message with which the store rejects a `PutObject`;
* `lookup params`: what the product lookup service answers;
* `calls`, `logs`: the calls made and the lines logged so far, oldest first. -/
structure World where
  objects : String → String → Option String
  getFault : String → String → Option (String × String)
  readFault : String → String → Option String
  putFault : String → String → Option (String × String)
  lookup : Values → Except String AmazonItemLookupResponse
  calls : List Call
  logs : List (Level × String)

/-- The `Body` stream of a `GetObjectOutput`: its bytes and, if reading it fails, the message. -/
structure Body where
  content : String
  readErr : Option String

/-- Appending a line to the log. -/
def World.log (w : World) (lvl : Level) (msg : String) : World :=
  { w with logs := w.logs ++ [(lvl, msg)] }

/-- Recording a call. -/
def World.call (w : World) (c : Call) : World :=
  { w with calls := w.calls ++ [c] }

/-- The store's `GetObject`: an injected fault, else `NoSuchKey` for an absent key, else the
object's body. -/
def s3GetObject (bucket key : String) (w : World) : Except GoError Body × World :=
  let w1 := w.call (.GetObject bucket key)
  match w.getFault bucket key with
  | some (code, msg) => (.error (.awserr code msg), w1)
  | none =>
    match w.objects bucket key with
    | none => (.error (.awserr "NoSuchKey" "The specified key does not exist."), w1)
    | some b => (.ok { content := b, readErr := w.readFault bucket key }, w1)

/-- Go `ioutil.ReadAll(obj.Body)`. -/
def ioutilReadAll (body : Body) : Except GoError String :=
  match body.readErr with
  | some msg => .error (.library msg)
  | none => .ok body.content

/-- The store's `PutObject`: an injected fault leaves the bucket as it is, otherwise the key
holds the new bytes afterwards. -/
def s3PutObject (bucket key data : String) (w : World) : Option GoError × World :=
  let w1 := w.call (.PutObject bucket key data)
  match w.putFault bucket key with
  | some (code, msg) => (some (.awserr code msg), w1)
  | none =>
    (none, { w1 with objects := fun b k => if b = bucket ∧ k = key then some data else w.objects b k })

/-- The client's `ItemLookup`. -/
def clientItemLookup (params : Values) (w : World) : Except GoError AmazonItemLookupResponse × World :=
  let w1 := w.call (.ItemLookup params)
  match w.lookup params with
  | .error msg => (.error (.library msg), w1)
  | .ok res => (.ok res, w1)

/-! ## The cache functions of `service` -/

/-- Go `(*service).getFileName`. -/
def service.getFileName (_s : service) (itemID : String) : String :=
  "amazon/" ++ itemID

/-- Go `(*service).getItemFromCache`. -/
def service.getItemFromCache (s : service) (itemID : String) (w : World) :
    Except GoError String × World :=
  let filename := s.getFileName itemID
  match s3GetObject s.bucketName filename w with
  | (.error err, w) => (.error err, w)
  | (.ok obj, w) =>
    match ioutilReadAll obj with
    | .error _ => (.error .ErrNotFoundFile, w)
    | .ok b => (.ok b, w)

/-- Go `(*service).saveItemToCache`; `none` is the `nil` error. -/
def service.saveItemToCache (s : service) (item : Item) (w : World) : Option GoError × World :=
  match jsonMarshal item with
  | .error err => (some err, w)
  | .ok b => s3PutObject s.bucketName (s.getFileName item.ASIN) b w

/-! ## The handler -/

/-- The function handed to `apex.HandleFunc`, from `log.Info(string(event))` to its end, for the
`service` value built from the configuration (see `mainHandler` for the lines before). -/
def handler (s : service) (event : Event) (w : World) : Except GoError Response × World :=
  let w := w.log .info event.raw
  match jsonUnmarshal event with
  | .error err => (.error err, w)
  | .ok m =>
    let itemID := m.QueryString.ItemID
    if itemID = "" then
      (.error (.errorString ("BadRequest: invalid item id: " ++ itemID)), w)
    else
      match s.getItemFromCache itemID w with
      | (.ok b, w) => (.ok { Body := b }, w)
      | (.error err, w) =>
        let w := if err ≠ .ErrNotFoundFile then w.log .warn ("failed get a cache: " ++ err.Error) else w
        let params : Values :=
          [ ("IdType", ["ASIN"]),
            ("ItemId", [itemID]),
            ("Operation", ["ItemLookup"]),
            ("ResponseGroup", ["Large"]) ]
        match clientItemLookup params w with
        | (.error err, w) =>
          (.error (.errorString ("InternalError: failed to get item infomation: " ++ err.Error)), w)
        | (.ok res, w) =>
          match resToItem res with
          | .error err =>
            (.error (.errorString ("InternalError: failed to get item from response: " ++ err.Error)), w)
          | .ok item =>
            let (saved, w) := s.saveItemToCache item w
            let w := match saved with
              | some err => w.log .warn ("failed to save a cache: " ++ err.Error)
              | none => w
            match jsonMarshal item with
            | .error err =>
              (.error (.errorString ("InternalError: failed to marshal json: " ++ err.Error)), w)
            | .ok b =>
              let w := w.log .info ("item id(" ++ itemID ++ ") json: " ++ b)
              (.ok { Body := b }, w)

/-- The process environment variables the function reads. -/
structure Environ where
  AWS_REGION : String
  bucket : String
  access : String
  secret : String
  tag : String
  domain : String

/-- How an invocation ends: `log.Fatal` stops the process, otherwise the function returns. -/
inductive Outcome where
  | fatal (msg : String)
  | returned (r : Except GoError Response)

/-- The whole function handed to `apex.HandleFunc`.  `newAmazing domain tag access secret` is the
error of `amazing.NewAmazing`, if it gives one. -/
def mainHandler (newAmazing : String → String → String → String → Option GoError)
    (env : Environ) (event : Event) (w : World) : Outcome × World :=
  let amazonDomain := if env.domain = "" then "JP" else env.domain
  match newAmazing amazonDomain env.tag env.access env.secret with
  | some err => (.fatal err.Error, w.log .fatal err.Error)
  | none =>
    let service : service := { bucketName := env.bucket }
    let r := handler service event w
    (.returned r.1, r.2)

/-! ## Classes of inbound events -/

/-- Every `item_id` member of a `queryStringParameters` object, if there is one at all, holds the
empty string. -/
def itemIDEmptyOrMissing (members : List (String × JSON)) : Bool :=
  members.all fun kv =>
    !equalFold kv.1 "item_id" ||
      (match kv.2 with
       | .string s => s == ""
       | _ => false)

/-- Every `queryStringParameters` member of an event object, if there is one at all, is an object
whose `item_id` is empty or missing. -/
def queryEmptyOrMissing (members : List (String × JSON)) : Bool :=
  members.all fun kv =>
    !equalFold kv.1 "queryStringParameters" ||
      (match kv.2 with
       | .object ms => itemIDEmptyOrMissing ms
       | _ => false)

/-! ## Concrete inputs -/

/-- A service value as built from a configuration with `bucket=embed-cache`. -/
def svc : service := { bucketName := "embed-cache" }

/-- The event `{"queryStringParameters":{"item_id":"B001"}}`. -/
def eventB001 : Event :=
  { raw := "\x7b\"queryStringParameters\":\x7b\"item_id\":\"B001\"\x7d\x7d"
    scan := .ok (.object [("queryStringParameters", .object [("item_id", .string "B001")])]) }

/-- The event `{"queryStringParameters":{}}`: no `item_id` member. -/
def eventNoItemID : Event :=
  { raw := "\x7b\"queryStringParameters\":\x7b\x7d\x7d"
    scan := .ok (.object [("queryStringParameters", .object [])]) }

/-- The event `{"queryStringParameters":{"item_id":5}}`: `item_id` is a number. -/
def eventNumericID : Event :=
  { raw := "\x7b\"queryStringParameters\":\x7b\"item_id\":5\x7d\x7d"
    scan := .ok (.object [("queryStringParameters", .object [("item_id", .number "5")])]) }

/-- The event `{`: not JSON. -/
def eventTruncated : Event :=
  { raw := "\x7b"
    scan := .error "unexpected end of JSON input" }

/-- The record of the lookup answer `{ASIN:"B001", ItemAttributes:{Title:"Widget"},
DetailPageURL:"http://x/B001"}`. -/
def widget : AmazonItem :=
  { ASIN := "B001"
    DetailPageURL := "http://x/B001"
    SmallImage := { URL := "" }
    MediumImage := { URL := "" }
    LargeImage := { URL := "" }
    ItemAttributes :=
      { Brand := "", Creator := "", Manufacturer := "", Publisher := "", ReleaseDate := "",
        Studio := "", Title := "Widget" } }

/-- The normalized `widget`. -/
def widgetItem : Item :=
  { ASIN := "B001", Brand := "", Creator := "", Manufacturer := "", Publisher := "",
    ReleaseDate := "", Studio := "", Title := "Widget", URL := "http://x/B001",
    SmallImage := "", MediumImage := "", LargeImage := "" }

/-- The JSON text of `widgetItem`. -/
def widgetJSON : String :=
  "\x7b\"ASIN\":\"B001\",\"Brand\":\"\",\"Creator\":\"\",\"Manufacturer\":\"\",\"Publisher\":\"\",\"ReleaseDate\":\"\",\"Studio\":\"\",\"Title\":\"Widget\",\"URL\":\"http://x/B001\",\"SmallImage\":\"\",\"MediumImage\":\"\",\"LargeImage\":\"\"\x7d"

/-- A second record, of another product. -/
def gadget : AmazonItem := { widget with ASIN := "B002", DetailPageURL := "http://x/B002" }

/-- The JSON text of the normalized `gadget`. -/
def gadgetJSON : String :=
  "\x7b\"ASIN\":\"B002\",\"Brand\":\"\",\"Creator\":\"\",\"Manufacturer\":\"\",\"Publisher\":\"\",\"ReleaseDate\":\"\",\"Studio\":\"\",\"Title\":\"Widget\",\"URL\":\"http://x/B002\",\"SmallImage\":\"\",\"MediumImage\":\"\",\"LargeImage\":\"\"\x7d"

/-- A record whose upstream answer carried no `ASIN` element. -/
def anonymous : AmazonItem := { widget with ASIN := "" }

/-- The parameters of the lookup for `B001`. -/
def paramsB001 : Values :=
  [("IdType", ["ASIN"]), ("ItemId", ["B001"]), ("Operation", ["ItemLookup"]),
    ("ResponseGroup", ["Large"])]

/-- An empty bucket without faults; the lookup service answers with the records `items`. -/
def emptyStore (items : List AmazonItem) : World :=
  { objects := fun _ _ => none
    getFault := fun _ _ => none
    readFault := fun _ _ => none
    putFault := fun _ _ => none
    lookup := fun _ => .ok { AmazonItems := { Items := items } }
    calls := []
    logs := [] }

/-- A bucket holding the bytes `not json` under `amazon/B001`; the lookup service is down. -/
def hitStore : World :=
  { objects := fun b k => if b = "embed-cache" ∧ k = "amazon/B001" then some "not json" else none
    getFault := fun _ _ => none
    readFault := fun _ _ => none
    putFault := fun _ _ => none
    lookup := fun _ => .error "service unavailable"
    calls := []
    logs := [] }

/-- A bucket that rejects every read and every write with `AccessDenied`. -/
def deniedStore : World :=
  { emptyStore [widget, gadget] with
    getFault := fun _ _ => some ("AccessDenied", "Access Denied")
    putFault := fun _ _ => some ("AccessDenied", "Access Denied") }

/-- A bucket holding `amazon/B001` whose body stream breaks off while it is read. -/
def brokenBodyStore : World :=
  { emptyStore [widget] with
    objects := fun b k => if b = "embed-cache" ∧ k = "amazon/B001" then some widgetJSON else none
    readFault := fun _ _ => some "unexpected EOF" }

/-! ## The lines before the request is read -/

theorem mainHandler_returns (newAmazing : String → String → String → String → Option GoError)
    (env : Environ) (event : Event) (w : World)
    (hnew : newAmazing (if env.domain = "" then "JP" else env.domain) env.tag env.access
      env.secret = none) :
    mainHandler newAmazing env event w =
      (.returned (handler { bucketName := env.bucket } event w).1,
        (handler { bucketName := env.bucket } event w).2) := by
  simp [mainHandler, hnew]

/-! ## Lemmas on the cache functions -/

theorem getItemFromCache_snd (s : service) (itemID : String) (w : World) :
    (s.getItemFromCache itemID w).2 = w.call (.GetObject s.bucketName ("amazon/" ++ itemID)) := by
  unfold service.getItemFromCache s3GetObject service.getFileName
  cases hf : w.getFault s.bucketName ("amazon/" ++ itemID) with
  | some p => simp [hf]
  | none =>
    cases ho : w.objects s.bucketName ("amazon/" ++ itemID) with
    | none => simp [hf, ho]
    | some b =>
      cases hr : w.readFault s.bucketName ("amazon/" ++ itemID) with
      | none => simp [ioutilReadAll, hr, hf, ho]
      | some e => simp [ioutilReadAll, hr, hf, ho]

theorem getItemFromCache_fst_log (s : service) (itemID : String) (w : World) (lvl : Level)
    (msg : String) :
    (s.getItemFromCache itemID (w.log lvl msg)).1 = (s.getItemFromCache itemID w).1 := by
  unfold service.getItemFromCache s3GetObject service.getFileName World.log
  cases hf : w.getFault s.bucketName ("amazon/" ++ itemID) with
  | some p => simp [hf]
  | none =>
    cases ho : w.objects s.bucketName ("amazon/" ++ itemID) with
    | none => simp [hf, ho]
    | some b =>
      cases hr : w.readFault s.bucketName ("amazon/" ++ itemID) with
      | none => simp [ioutilReadAll, hr, hf, ho]
      | some e => simp [ioutilReadAll, hr, hf, ho]

theorem getItemFromCache_eq (s : service) (itemID : String) (w : World) :
    s.getItemFromCache itemID w =
      ((s.getItemFromCache itemID w).1, w.call (.GetObject s.bucketName ("amazon/" ++ itemID))) := by
  rw [← getItemFromCache_snd]

theorem getItemFromCache_absent (s : service) (itemID : String) (w : World)
    (habs : w.objects s.bucketName ("amazon/" ++ itemID) = none) :
    ∃ e, (s.getItemFromCache itemID w).1 = .error e := by
  unfold service.getItemFromCache s3GetObject service.getFileName
  cases hf : w.getFault s.bucketName ("amazon/" ++ itemID) with
  | some p => exact ⟨.awserr p.1 p.2, by simp [hf]⟩
  | none => exact ⟨.awserr "NoSuchKey" "The specified key does not exist.", by simp [hf, habs]⟩

theorem getItemFromCache_present (s : service) (itemID b : String) (w : World)
    (hget : w.getFault s.bucketName ("amazon/" ++ itemID) = none)
    (hobj : w.objects s.bucketName ("amazon/" ++ itemID) = some b)
    (hread : w.readFault s.bucketName ("amazon/" ++ itemID) = none) :
    (s.getItemFromCache itemID w).1 = .ok b := by
  unfold service.getItemFromCache s3GetObject service.getFileName
  simp [hget, hobj, hread, ioutilReadAll]

/-! ## Lemmas on `resToItem` and the decoder -/

theorem resToItem_cons (res : AmazonItemLookupResponse) (r : AmazonItem) (rest : List AmazonItem)
    (hitems : res.AmazonItems.Items = r :: rest) :
    resToItem res = .ok
      { ASIN := r.ASIN
        Brand := r.ItemAttributes.Brand
        Creator := r.ItemAttributes.Creator
        Manufacturer := r.ItemAttributes.Manufacturer
        Publisher := r.ItemAttributes.Publisher
        ReleaseDate := r.ItemAttributes.ReleaseDate
        Studio := r.ItemAttributes.Studio
        Title := r.ItemAttributes.Title
        URL := r.DetailPageURL
        SmallImage := r.SmallImage.URL
        MediumImage := r.MediumImage.URL
        LargeImage := r.LargeImage.URL } := by
  simp [resToItem, hitems]

theorem encodeItem_widget : encodeItem widgetItem = widgetJSON := rfl

theorem decodeItemID_fold_empty (members : List (String × JSON))
    (h : itemIDEmptyOrMissing members = true) :
    members.foldl (fun a kv => if equalFold kv.1 "item_id" then decodeItemID a kv.2 else a)
      ({ ItemID := "" }, none) = ({ ItemID := "" }, none) := by
  induction members with
  | nil => rfl
  | cons kv rest ih =>
    simp only [itemIDEmptyOrMissing, List.all_cons, Bool.and_eq_true] at h
    have hrest : itemIDEmptyOrMissing rest = true := h.2
    rw [List.foldl_cons]
    by_cases hk : equalFold kv.1 "item_id" = true
    · have hv := h.1
      simp only [hk, Bool.not_true, Bool.false_or] at hv
      cases hkv : kv.2 with
      | string s =>
        rw [hkv] at hv
        simp only [beq_iff_eq] at hv
        simp only [hk, if_true, hkv, decodeItemID, hv]
        exact ih hrest
      | null => rw [hkv] at hv; simp at hv
      | bool b => rw [hkv] at hv; simp at hv
      | number n => rw [hkv] at hv; simp at hv
      | array xs => rw [hkv] at hv; simp at hv
      | object ms => rw [hkv] at hv; simp at hv
    · simp only [hk]
      exact ih hrest

theorem decodeQueryString_fold_empty (members : List (String × JSON))
    (h : queryEmptyOrMissing members = true) :
    members.foldl
      (fun a kv => if equalFold kv.1 "queryStringParameters" then decodeQueryString a kv.2 else a)
      ({ ItemID := "" }, none) = ({ ItemID := "" }, none) := by
  induction members with
  | nil => rfl
  | cons kv rest ih =>
    simp only [queryEmptyOrMissing, List.all_cons, Bool.and_eq_true] at h
    have hrest : queryEmptyOrMissing rest = true := h.2
    rw [List.foldl_cons]
    by_cases hk : equalFold kv.1 "queryStringParameters" = true
    · have hv := h.1
      simp only [hk, Bool.not_true, Bool.false_or] at hv
      cases hkv : kv.2 with
      | object ms =>
        rw [hkv] at hv
        simp only [hk, if_true, hkv, decodeQueryString, decodeItemID_fold_empty ms hv]
        exact ih hrest
      | null => rw [hkv] at hv; simp at hv
      | bool b => rw [hkv] at hv; simp at hv
      | number n => rw [hkv] at hv; simp at hv
      | array xs => rw [hkv] at hv; simp at hv
      | string ms => rw [hkv] at hv; simp at hv
    · simp only [hk]
      exact ih hrest

theorem jsonUnmarshal_empty_or_missing (event : Event) (members : List (String × JSON))
    (hscan : event.scan = .ok (.object members))
    (hmiss : queryEmptyOrMissing members = true) :
    jsonUnmarshal event = .ok { QueryString := { ItemID := "" } } := by
  unfold jsonUnmarshal
  rw [hscan]
  simp only [decodeMessage, decodeQueryString_fold_empty members hmiss]

/-! ## Lemmas on the paths of the handler -/

theorem handler_empty_id (s : service) (event : Event) (w : World)
    (hm : jsonUnmarshal event = .ok { QueryString := { ItemID := "" } }) :
    handler s event w =
      (.error (.errorString "BadRequest: invalid item id: "), w.log .info event.raw) := by
  unfold handler
  simp [hm]

theorem handler_hit (s : service) (event : Event) (w : World) (itemID b : String)
    (hm : jsonUnmarshal event = .ok { QueryString := { ItemID := itemID } })
    (hid : itemID ≠ "")
    (hread : (s.getItemFromCache itemID w).1 = .ok b) :
    (handler s event w).1 = .ok { Body := b } ∧
    (handler s event w).2.calls = w.calls ++ [.GetObject s.bucketName ("amazon/" ++ itemID)] ∧
    (handler s event w).2.objects = w.objects := by
  have h1 : (s.getItemFromCache itemID (w.log .info event.raw)).1 = .ok b := by
    rw [getItemFromCache_fst_log]; exact hread
  unfold handler
  simp only [hm]
  rw [getItemFromCache_eq, h1]
  simp [hid, World.call, World.log]

theorem handler_fetch (s : service) (event : Event) (w : World) (itemID : String) (e : GoError)
    (res : AmazonItemLookupResponse) (item : Item)
    (hm : jsonUnmarshal event = .ok { QueryString := { ItemID := itemID } })
    (hid : itemID ≠ "")
    (hread : (s.getItemFromCache itemID w).1 = .error e)
    (hlk : w.lookup [("IdType", ["ASIN"]), ("ItemId", [itemID]), ("Operation", ["ItemLookup"]),
      ("ResponseGroup", ["Large"])] = .ok res)
    (hitem : resToItem res = .ok item) :
    (handler s event w).1 = .ok { Body := encodeItem item } ∧
    (handler s event w).2.calls = w.calls ++
      [ .GetObject s.bucketName ("amazon/" ++ itemID),
        .ItemLookup [("IdType", ["ASIN"]), ("ItemId", [itemID]), ("Operation", ["ItemLookup"]),
          ("ResponseGroup", ["Large"])],
        .PutObject s.bucketName ("amazon/" ++ item.ASIN) (encodeItem item) ] := by
  have h1 : (s.getItemFromCache itemID (w.log .info event.raw)).1 = .error e := by
    rw [getItemFromCache_fst_log]; exact hread
  unfold handler
  simp only [hm]
  rw [getItemFromCache_eq, h1]
  cases hp : w.putFault s.bucketName ("amazon/" ++ item.ASIN) with
  | none =>
    by_cases he : e = .ErrNotFoundFile <;>
    simp [hid, he, clientItemLookup, World.call, World.log, hlk, hitem, service.saveItemToCache,
      jsonMarshal, s3PutObject, service.getFileName, hp]
  | some p =>
    by_cases he : e = .ErrNotFoundFile <;>
    simp [hid, he, clientItemLookup, World.call, World.log, hlk, hitem, service.saveItemToCache,
      jsonMarshal, s3PutObject, service.getFileName, hp]

theorem handler_fetch_objects (s : service) (event : Event) (w : World) (itemID : String)
    (e : GoError) (res : AmazonItemLookupResponse) (item : Item)
    (hm : jsonUnmarshal event = .ok { QueryString := { ItemID := itemID } })
    (hid : itemID ≠ "")
    (hread : (s.getItemFromCache itemID w).1 = .error e)
    (hlk : w.lookup [("IdType", ["ASIN"]), ("ItemId", [itemID]), ("Operation", ["ItemLookup"]),
      ("ResponseGroup", ["Large"])] = .ok res)
    (hitem : resToItem res = .ok item)
    (hput : w.putFault s.bucketName ("amazon/" ++ item.ASIN) = none) :
    (handler s event w).2.objects s.bucketName ("amazon/" ++ item.ASIN) =
      some (encodeItem item) := by
  have h1 : (s.getItemFromCache itemID (w.log .info event.raw)).1 = .error e := by
    rw [getItemFromCache_fst_log]; exact hread
  unfold handler
  simp only [hm]
  rw [getItemFromCache_eq, h1]
  by_cases he : e = .ErrNotFoundFile <;>
  simp [hid, he, clientItemLookup, World.call, World.log, hlk, hitem, service.saveItemToCache,
    jsonMarshal, s3PutObject, service.getFileName, hput]

theorem handler_empty (s : service) (event : Event) (w : World) (itemID : String) (e : GoError)
    (res : AmazonItemLookupResponse)
    (hm : jsonUnmarshal event = .ok { QueryString := { ItemID := itemID } })
    (hid : itemID ≠ "")
    (hread : (s.getItemFromCache itemID w).1 = .error e)
    (hlk : w.lookup [("IdType", ["ASIN"]), ("ItemId", [itemID]), ("Operation", ["ItemLookup"]),
      ("ResponseGroup", ["Large"])] = .ok res)
    (hitems : res.AmazonItems.Items = []) :
    (handler s event w).1 = .error (.errorString
      "InternalError: failed to get item from response: empty amazon items") ∧
    (handler s event w).2.calls = w.calls ++
      [ .GetObject s.bucketName ("amazon/" ++ itemID),
        .ItemLookup [("IdType", ["ASIN"]), ("ItemId", [itemID]), ("Operation", ["ItemLookup"]),
          ("ResponseGroup", ["Large"])] ] ∧
    (handler s event w).2.objects = w.objects := by
  have h1 : (s.getItemFromCache itemID (w.log .info event.raw)).1 = .error e := by
    rw [getItemFromCache_fst_log]; exact hread
  have h2 : resToItem res = .error (.errorString "empty amazon items") := by
    simp [resToItem, hitems]
  unfold handler
  simp only [hm]
  rw [getItemFromCache_eq, h1]
  refine ⟨?_, ?_, ?_⟩ <;>
  by_cases he : e = .ErrNotFoundFile <;>
  simp [hid, he, clientItemLookup, World.call, World.log, hlk, h2, GoError.Error]

/-! ## The claims -/

/-- C1: a cache hit short-circuits.  For every event carrying a non-empty item id, if the cache
read of that id succeeds with bytes `b`, the handler returns `Response{Body: b}` with exactly
those bytes, its only call is the one `GetObject` of key `amazon/<id>` (no lookup, no write),
and the bucket is left as it was. -/
theorem cache_hit_short_circuits (s : service) (event : Event) (w : World) (itemID b : String)
    (hm : jsonUnmarshal event = .ok { QueryString := { ItemID := itemID } })
    (hid : itemID ≠ "")
    (hread : (s.getItemFromCache itemID w).1 = .ok b) :
    (handler s event w).1 = .ok { Body := b } ∧
    (handler s event w).2.calls = w.calls ++ [.GetObject s.bucketName ("amazon/" ++ itemID)] ∧
    (handler s event w).2.objects = w.objects :=
  handler_hit s event w itemID b hm hid hread

/-- Witness for C1: the bucket holds bytes that are not even JSON; they come back unchanged. -/
theorem cache_hit_short_circuits_witness :
    (handler svc eventB001 hitStore).1 = .ok { Body := "not json" } ∧
    (handler svc eventB001 hitStore).2.calls = [.GetObject "embed-cache" "amazon/B001"] ∧
    (handler svc eventB001 hitStore).2.objects = hitStore.objects :=
  cache_hit_short_circuits svc eventB001 hitStore "B001" "not json" rfl (by decide) rfl

/-- C2: an event object whose `item_id` is the empty string, or whose `queryStringParameters`
or `item_id` member is missing, makes the handler fail with the error
`BadRequest: invalid item id: `, whose text starts with `BadRequest`, and no call to the store
or the lookup client has been made by then; the bucket is untouched. -/
theorem empty_or_missing_id_is_bad_request (s : service) (event : Event) (w : World)
    (members : List (String × JSON))
    (hscan : event.scan = .ok (.object members))
    (hmiss : queryEmptyOrMissing members = true) :
    (handler s event w).1 = .error (.errorString "BadRequest: invalid item id: ") ∧
    beginsWith (GoError.errorString "BadRequest: invalid item id: ").Error "BadRequest" = true ∧
    (handler s event w).2.calls = w.calls ∧
    (handler s event w).2.objects = w.objects := by
  rw [handler_empty_id s event w (jsonUnmarshal_empty_or_missing event members hscan hmiss)]
  exact ⟨rfl, by decide, rfl, rfl⟩

/-- Witness for C2: the event `{"queryStringParameters":{}}`. -/
theorem empty_or_missing_id_is_bad_request_witness :
    (handler svc eventNoItemID hitStore).1 = .error (.errorString "BadRequest: invalid item id: ") ∧
    beginsWith (GoError.errorString "BadRequest: invalid item id: ").Error "BadRequest" = true ∧
    (handler svc eventNoItemID hitStore).2.calls = [] ∧
    (handler svc eventNoItemID hitStore).2.objects = hitStore.objects :=
  empty_or_missing_id_is_bad_request svc eventNoItemID hitStore
    [("queryStringParameters", .object [])] rfl rfl

/-- C3: for a non-empty item id with no cache entry, when the lookup answers with at least one
record, the calls of the handler are exactly: `GetObject` of `amazon/<id>`, then `ItemLookup`
with `IdType=ASIN, ItemId=<id>, Operation=ItemLookup, ResponseGroup=Large`, then `PutObject`
under `amazon/<ASIN of the first record>`; the bytes put and the returned body are the same JSON
encoding of the item `resToItem` makes of the answer. -/
theorem miss_call_sequence (s : service) (event : Event) (w : World) (itemID : String)
    (res : AmazonItemLookupResponse) (r : AmazonItem) (rest : List AmazonItem)
    (hm : jsonUnmarshal event = .ok { QueryString := { ItemID := itemID } })
    (hid : itemID ≠ "")
    (habs : w.objects s.bucketName ("amazon/" ++ itemID) = none)
    (hlk : w.lookup [("IdType", ["ASIN"]), ("ItemId", [itemID]), ("Operation", ["ItemLookup"]),
      ("ResponseGroup", ["Large"])] = .ok res)
    (hitems : res.AmazonItems.Items = r :: rest) :
    ∃ item, resToItem res = .ok item ∧
      (handler s event w).1 = .ok { Body := encodeItem item } ∧
      (handler s event w).2.calls = w.calls ++
        [ .GetObject s.bucketName ("amazon/" ++ itemID),
          .ItemLookup [("IdType", ["ASIN"]), ("ItemId", [itemID]), ("Operation", ["ItemLookup"]),
            ("ResponseGroup", ["Large"])],
          .PutObject s.bucketName ("amazon/" ++ r.ASIN) (encodeItem item) ] := by
  obtain ⟨e, he⟩ := getItemFromCache_absent s itemID w habs
  have hitem := resToItem_cons res r rest hitems
  exact ⟨_, hitem, handler_fetch s event w itemID e res _ hm hid he hlk hitem⟩

/-- Witness for C3: the example of the specification, `B001` not in the cache. -/
theorem miss_call_sequence_witness :
    ∃ item, resToItem { AmazonItems := { Items := [widget] } } = .ok item ∧
      (handler svc eventB001 (emptyStore [widget])).1 = .ok { Body := encodeItem item } ∧
      (handler svc eventB001 (emptyStore [widget])).2.calls =
        [ .GetObject "embed-cache" "amazon/B001",
          .ItemLookup paramsB001,
          .PutObject "embed-cache" "amazon/B001" (encodeItem item) ] :=
  miss_call_sequence svc eventB001 (emptyStore [widget]) "B001"
    { AmazonItems := { Items := [widget] } } widget [] rfl (by decide) rfl rfl rfl

/-- C4: for a non-empty item id whose cache read does not succeed, a lookup answer with zero
records makes the handler fail with an error whose text starts with `InternalError`; the calls
are the `GetObject` and the `ItemLookup` only, so nothing is written, and the bucket is as
before. -/
theorem zero_records_is_internal_error (s : service) (event : Event) (w : World)
    (itemID : String) (e : GoError) (res : AmazonItemLookupResponse)
    (hm : jsonUnmarshal event = .ok { QueryString := { ItemID := itemID } })
    (hid : itemID ≠ "")
    (hread : (s.getItemFromCache itemID w).1 = .error e)
    (hlk : w.lookup [("IdType", ["ASIN"]), ("ItemId", [itemID]), ("Operation", ["ItemLookup"]),
      ("ResponseGroup", ["Large"])] = .ok res)
    (hitems : res.AmazonItems.Items = []) :
    ∃ err, (handler s event w).1 = .error err ∧
      beginsWith err.Error "InternalError" = true ∧
      (handler s event w).2.calls = w.calls ++
        [ .GetObject s.bucketName ("amazon/" ++ itemID),
          .ItemLookup [("IdType", ["ASIN"]), ("ItemId", [itemID]), ("Operation", ["ItemLookup"]),
            ("ResponseGroup", ["Large"])] ] ∧
      (handler s event w).2.objects = w.objects := by
  obtain ⟨h1, h2, h3⟩ := handler_empty s event w itemID e res hm hid hread hlk hitems
  exact ⟨_, h1, by decide, h2, h3⟩

/-- Witness for C4: an empty bucket and a lookup answer without records. -/
theorem zero_records_is_internal_error_witness :
    ∃ err, (handler svc eventB001 (emptyStore [])).1 = .error err ∧
      beginsWith err.Error "InternalError" = true ∧
      (handler svc eventB001 (emptyStore [])).2.calls =
        [ .GetObject "embed-cache" "amazon/B001", .ItemLookup paramsB001 ] ∧
      (handler svc eventB001 (emptyStore [])).2.objects = (emptyStore []).objects :=
  zero_records_is_internal_error svc eventB001 (emptyStore []) "B001"
    (.awserr "NoSuchKey" "The specified key does not exist.")
    { AmazonItems := { Items := [] } } rfl (by decide) rfl rfl rfl

/-- C5: failures of the cache layer are never fatal.  For a non-empty item id, whenever the
cache read fails with any error `e` and the lookup answers with at least one record, the handler
succeeds with the JSON encoding of the item `resToItem` makes of the first record alone; the
store is arbitrary, so this holds whatever the later `PutObject` does, and the body is the same
for every read error. -/
theorem cache_failures_are_not_fatal (s : service) (event : Event) (w : World)
    (itemID : String) (e : GoError) (res : AmazonItemLookupResponse) (r : AmazonItem)
    (rest : List AmazonItem)
    (hm : jsonUnmarshal event = .ok { QueryString := { ItemID := itemID } })
    (hid : itemID ≠ "")
    (hread : (s.getItemFromCache itemID w).1 = .error e)
    (hlk : w.lookup [("IdType", ["ASIN"]), ("ItemId", [itemID]), ("Operation", ["ItemLookup"]),
      ("ResponseGroup", ["Large"])] = .ok res)
    (hitems : res.AmazonItems.Items = r :: rest) :
    ∃ item, resToItem { AmazonItems := { Items := [r] } } = .ok item ∧
      (handler s event w).1 = .ok { Body := encodeItem item } := by
  have hitem := resToItem_cons res r rest hitems
  exact ⟨_, resToItem_cons _ r [] rfl,
    (handler_fetch s event w itemID e res _ hm hid hread hlk hitem).1⟩

/-- Witness for C5: the store denies the read and the write; the item still comes back. -/
theorem cache_failures_are_not_fatal_witness :
    ∃ item, resToItem { AmazonItems := { Items := [widget] } } = .ok item ∧
      (handler svc eventB001 deniedStore).1 = .ok { Body := encodeItem item } :=
  cache_failures_are_not_fatal svc eventB001 deniedStore "B001"
    (.awserr "AccessDenied" "Access Denied")
    { AmazonItems := { Items := [widget, gadget] } } widget [gadget] rfl (by decide) rfl rfl rfl

/-- C6: for every lookup answer with at least one record, `resToItem` succeeds and each of the
twelve fields of the item is the corresponding field of the first record (so a field that is
empty in the record is the empty string in the item); the records after the first play no
part. -/
theorem resToItem_first_record (res : AmazonItemLookupResponse) (r : AmazonItem)
    (rest : List AmazonItem) (hitems : res.AmazonItems.Items = r :: rest) :
    resToItem res = .ok
      { ASIN := r.ASIN
        Brand := r.ItemAttributes.Brand
        Creator := r.ItemAttributes.Creator
        Manufacturer := r.ItemAttributes.Manufacturer
        Publisher := r.ItemAttributes.Publisher
        ReleaseDate := r.ItemAttributes.ReleaseDate
        Studio := r.ItemAttributes.Studio
        Title := r.ItemAttributes.Title
        URL := r.DetailPageURL
        SmallImage := r.SmallImage.URL
        MediumImage := r.MediumImage.URL
        LargeImage := r.LargeImage.URL } ∧
    resToItem res = resToItem { AmazonItems := { Items := [r] } } := by
  rw [resToItem_cons res r rest hitems, resToItem_cons _ r [] rfl]
  exact ⟨rfl, rfl⟩

/-- Witness for C6: an answer with two records normalizes to the first one. -/
theorem resToItem_first_record_witness :
    resToItem { AmazonItems := { Items := [widget, gadget] } } = .ok widgetItem ∧
    resToItem { AmazonItems := { Items := [widget, gadget] } } =
      resToItem { AmazonItems := { Items := [widget] } } :=
  resToItem_first_record { AmazonItems := { Items := [widget, gadget] } } widget [gadget] rfl

/-- C7, evaluated at two events the gateway can deliver: with `item_id` a number, and with a
payload that is not JSON, the handler returns the error of `json.Unmarshal` as it is, and
its text starts neither with `BadRequest` nor with `InternalError`. -/
theorem unmarshal_error_has_no_category :
    (handler svc eventNumericID (emptyStore [widget])).1 = .error (.jsonType "number" "string") ∧
    (GoError.jsonType "number" "string").Error =
      "json: cannot unmarshal number into Go value of type string" ∧
    beginsWith (GoError.jsonType "number" "string").Error "BadRequest" = false ∧
    beginsWith (GoError.jsonType "number" "string").Error "InternalError" = false ∧
    (handler svc eventTruncated (emptyStore [widget])).1 =
      .error (.jsonSyntax "unexpected end of JSON input") ∧
    beginsWith (GoError.jsonSyntax "unexpected end of JSON input").Error "BadRequest" = false ∧
    beginsWith (GoError.jsonSyntax "unexpected end of JSON input").Error "InternalError" = false :=
  ⟨rfl, rfl, by decide, by decide, rfl, by decide, by decide⟩

/-- Counterexample to C8 as stated: the lookup for `B001` answers with a record whose ASIN is
`B002`.  The first invocation misses, fetches and writes successfully, under `amazon/B002`; the
second invocation with the same id reads `amazon/B001` again, does not find it, and goes to the
lookup service and the store a second time. -/
theorem second_call_misses_when_asin_differs :
    (emptyStore [gadget]).objects "embed-cache" "amazon/B001" = none ∧
    (handler svc eventB001 (emptyStore [gadget])).1 = .ok { Body := gadgetJSON } ∧
    (handler svc eventB001 (emptyStore [gadget])).2.objects "embed-cache" "amazon/B002" =
      some gadgetJSON ∧
    (handler svc eventB001 (emptyStore [gadget])).2.objects "embed-cache" "amazon/B001" = none ∧
    (handler svc eventB001 (handler svc eventB001 (emptyStore [gadget])).2).2.calls =
      (handler svc eventB001 (emptyStore [gadget])).2.calls ++
        [ .GetObject "embed-cache" "amazon/B001",
          .ItemLookup paramsB001,
          .PutObject "embed-cache" "amazon/B002" gadgetJSON ] :=
  ⟨rfl, rfl, rfl, rfl, rfl⟩

/-- C8, amended: for a non-empty item id, if a first invocation finds no cache entry, the lookup
answers with a first record whose ASIN is the requested id, and the cache write succeeds, then an
invocation with the same event against any world that holds the resulting bucket contents and
serves the read of `amazon/<id>` returns exactly the body of the first invocation, and its only
call is that `GetObject`: no lookup, no write. -/
theorem second_call_hits_cache (s : service) (event : Event) (w w2 : World) (itemID : String)
    (res : AmazonItemLookupResponse) (r : AmazonItem) (rest : List AmazonItem)
    (hm : jsonUnmarshal event = .ok { QueryString := { ItemID := itemID } })
    (hid : itemID ≠ "")
    (habs : w.objects s.bucketName ("amazon/" ++ itemID) = none)
    (hlk : w.lookup [("IdType", ["ASIN"]), ("ItemId", [itemID]), ("Operation", ["ItemLookup"]),
      ("ResponseGroup", ["Large"])] = .ok res)
    (hitems : res.AmazonItems.Items = r :: rest)
    (hasin : r.ASIN = itemID)
    (hput : w.putFault s.bucketName ("amazon/" ++ itemID) = none)
    (hstore : w2.objects = (handler s event w).2.objects)
    (hget2 : w2.getFault s.bucketName ("amazon/" ++ itemID) = none)
    (hread2 : w2.readFault s.bucketName ("amazon/" ++ itemID) = none) :
    (handler s event w2).1 = (handler s event w).1 ∧
    (handler s event w2).2.calls = w2.calls ++ [.GetObject s.bucketName ("amazon/" ++ itemID)] := by
  subst hasin
  obtain ⟨e, he⟩ := getItemFromCache_absent s r.ASIN w habs
  have hitem := resToItem_cons res r rest hitems
  obtain ⟨hbody, _⟩ := handler_fetch s event w r.ASIN e res _ hm hid he hlk hitem
  have hobj := handler_fetch_objects s event w r.ASIN e res _ hm hid he hlk hitem hput
  rw [← hstore] at hobj
  obtain ⟨hbody2, hcalls2, _⟩ := handler_hit s event w2 r.ASIN _ hm hid
    (getItemFromCache_present s r.ASIN _ w2 hget2 hobj hread2)
  rw [hbody, hbody2]
  exact ⟨rfl, hcalls2⟩

/-- Witness for C8 amended: `B001` is fetched and stored, the next invocation is a hit. -/
theorem second_call_hits_cache_witness :
    (handler svc eventB001 (handler svc eventB001 (emptyStore [widget])).2).1 =
      (handler svc eventB001 (emptyStore [widget])).1 ∧
    (handler svc eventB001 (handler svc eventB001 (emptyStore [widget])).2).2.calls =
      (handler svc eventB001 (emptyStore [widget])).2.calls ++
        [.GetObject "embed-cache" "amazon/B001"] :=
  second_call_hits_cache svc eventB001 (emptyStore [widget])
    (handler svc eventB001 (emptyStore [widget])).2 "B001"
    { AmazonItems := { Items := [widget] } } widget [] rfl (by decide) rfl rfl rfl rfl rfl rfl
    rfl rfl

/-- Counterexample to C9 as stated: on an answer whose first record has no ASIN, `resToItem`
succeeds and the item's ASIN is the empty string. -/
theorem resToItem_empty_asin :
    resToItem { AmazonItems := { Items := [anonymous] } } = .ok { widgetItem with ASIN := "" } ∧
    ({ widgetItem with ASIN := "" } : Item).ASIN = "" :=
  ⟨rfl, rfl⟩

/-- C9, amended: whenever `resToItem` succeeds, the answer has a first record and the item's ASIN
is that record's ASIN, copied unchecked; it is non-empty exactly when the record's is. -/
theorem resToItem_asin_of_first_record (res : AmazonItemLookupResponse) (item : Item)
    (h : resToItem res = .ok item) :
    ∃ r rest, res.AmazonItems.Items = r :: rest ∧ item.ASIN = r.ASIN ∧
      (item.ASIN ≠ "" ↔ r.ASIN ≠ "") := by
  cases hitems : res.AmazonItems.Items with
  | nil => simp [resToItem, hitems] at h
  | cons r rest =>
    rw [resToItem_cons res r rest hitems] at h
    injection h with h
    subst h
    exact ⟨r, rest, rfl, rfl, Iff.rfl⟩

/-- Witness for C9 amended: the one-record answer for `B001`. -/
theorem resToItem_asin_of_first_record_witness :
    ∃ r rest, [widget] = r :: rest ∧ widgetItem.ASIN = r.ASIN ∧
      (widgetItem.ASIN ≠ "" ↔ r.ASIN ≠ "") :=
  resToItem_asin_of_first_record { AmazonItems := { Items := [widget] } } widgetItem rfl

/-- C10, evaluated at an empty bucket and at a bucket whose object cannot be read to the end:
for the missing key `getItemFromCache` returns the store's `NoSuchKey` error, which is not
`ErrNotFoundFile`, and the handler logs the warning; for the unreadable body it returns
`ErrNotFoundFile` and the handler logs no warning. -/
theorem not_found_classification_is_inverted :
    (svc.getItemFromCache "B001" (emptyStore [widget])).1 =
      .error (.awserr "NoSuchKey" "The specified key does not exist.") ∧
    GoError.awserr "NoSuchKey" "The specified key does not exist." ≠ GoError.ErrNotFoundFile ∧
    (handler svc eventB001 (emptyStore [widget])).2.logs.filter (fun l => l.1 = .warn) =
      [(.warn, "failed get a cache: NoSuchKey: The specified key does not exist.")] ∧
    (svc.getItemFromCache "B001" brokenBodyStore).1 = .error .ErrNotFoundFile ∧
    (handler svc eventB001 brokenBodyStore).2.logs.filter (fun l => l.1 = .warn) = [] :=
  ⟨rfl, by decide, rfl, rfl, rfl⟩

end HugoEmbedApi
